import Mathlib

/-!
Shallow embedding of the NodeLab execution engine (App.tsx, store, apiService.ts):
the input resolver, the prompt-merger and image-splitter handlers, the video
payload builders, the poll-step callbacks and the graph store, together with
theorems about them.  JS numbers that only ever hold pixel sizes and trims are
modelled as rationals; `undefined` is modelled as `Option.none`; thrown errors
as `Except.error` carrying the message.
-/

namespace NodeLab

/-- JS truthiness for an optional string: `undefined` and `""` are falsy;
`truthyVal o` is `some s` exactly when `o` holds a non-empty string. -/
def truthyVal (o : Option String) : Option String :=
  match o with
  | some s => if s = "" then none else some s
  | none => none

/-- JS `o || d` for an optional string `o` and a string default `d`. -/
def jsOrStr (o : Option String) (d : String) : String :=
  (truthyVal o).getD d

/-- JS `a || b` where both operands are optional strings. -/
def jsOrOptStr (a b : Option String) : Option String :=
  match truthyVal a with
  | some s => some s
  | none => b

/-- Numeric value of a list of decimal digit characters, most significant first. -/
def digitsVal (l : List Char) : Nat :=
  l.foldl (fun acc c => acc * 10 + (c.toNat - '0'.toNat)) 0

/-- JS `parseInt(s, 10)`: skip leading whitespace, read an optional sign and the
longest prefix of decimal digits; `none` models `NaN` (no digits found); any
trailing garbage is ignored. -/
def jsParseInt (s : String) : Option Int :=
  let cs := s.toList.dropWhile Char.isWhitespace
  let signed : Int × List Char :=
    match cs with
    | '-' :: rest => (-1, rest)
    | '+' :: rest => (1, rest)
    | _ => (1, cs)
  let digits := signed.2.takeWhile Char.isDigit
  if digits.isEmpty then none
  else some (signed.1 * (digitsVal digits : Int))

/-- JS `String.prototype.trim`: strip whitespace from both ends. -/
def jsTrim (s : String) : String :=
  String.mk (((s.toList.dropWhile Char.isWhitespace).reverse.dropWhile Char.isWhitespace).reverse)

/-- A separator character of the cell-selection string: the regex class `[,\s]`
used in `selectStr.split(/[,\s]+/)`. -/
def isSepChar (c : Char) : Bool := c = ',' || c.isWhitespace

/-- Worker for JS `s.split(/[,\s]+/)`: a maximal run of separator characters
delimits tokens; a leading or trailing run contributes an empty token.  `acc`
is the current token reversed and `inSep` records that the previous character
belonged to a separator run. -/
def splitSelAux : List Char → List Char → Bool → List String
  | [], acc, false => [String.mk acc.reverse]
  | [], _, true => [""]
  | c :: rest, acc, false =>
    if isSepChar c then String.mk acc.reverse :: splitSelAux rest [] true
    else splitSelAux rest (c :: acc) false
  | c :: rest, _, true =>
    if isSepChar c then splitSelAux rest [] true
    else splitSelAux rest [c] false

/-- JS `selectStr.split(/[,\s]+/)` as used by the image splitter. -/
def selectTokens (s : String) : List String := splitSelAux s.toList [] false

/-! ## Prompt merger (App.tsx, `executeNode`, promptMerge branch) -/

/-- The prompt-merger padding loop,
`while (finalShots.length < targetLen) finalShots.push(finalShots[finalShots.length - 1])`:
while the list is shorter than `targetLen`, a copy of its last element is
appended.  (The handler only reaches this loop with a non-empty list; the
`none` branch totalizes the empty case, on which the loop is never run.) -/
def padShots (shots : List String) (targetLen : Nat) : List String :=
  if h : shots.length < targetLen then
    match shots.getLast? with
    | some last => padShots (shots ++ [last]) targetLen
    | none => shots
  else shots
termination_by targetLen - shots.length
decreasing_by simp only [List.length_append, List.length_cons, List.length_nil]; omega

/-- Shot-sequence resolution of the prompt merger: an empty shot list is the
error `缺少序列内容分镜描述`; otherwise the target length is 9 for a `3x3` grid
and 4 otherwise, the list is padded by repeating its last element and then
truncated (`finalShots.slice(0, targetLen)`). -/
def resolveShotSequence (shots : List String) (gridType : String) : Except String (List String) :=
  if shots.length = 0 then Except.error "缺少序列内容分镜描述"
  else
    let targetLen : Nat := if gridType = "3x3" then 9 else 4
    Except.ok ((padShots shots targetLen).take targetLen)

/-! ## Image splitter cell selection (App.tsx, `executeNode`, imageSplit branch) -/

/-- The selected 1-based cell indices of the image splitter: a selection string
trimming to `"0"` selects every cell (`Array.from({length: totalCells}, (_, i) => i + 1)`);
otherwise the string is split on `[,\s]+`, each token parsed with
`parseInt(s, 10)`, and the results filtered by `!isNaN(n) && n >= 1 && n <= totalCells`. -/
def inRangeSel (totalCells : Nat) (n : Int) : Bool :=
  decide (1 ≤ n) && decide (n ≤ (totalCells : Int))

def selectedIndices (selectStr : String) (totalCells : Nat) : List Int :=
  if jsTrim selectStr = "0" then
    (List.range totalCells).map (fun i => (i : Int) + 1)
  else
    (((selectTokens selectStr).map jsParseInt).filter
      (fun o => o.any (inRangeSel totalCells))).filterMap id

/-- The selection step of the splitter handler: an empty resulting selection is
the error `无有效的选择索引`. -/
def imageSplitSelection (selectStr : String) (totalCells : Nat) : Except String (List Int) :=
  let l := selectedIndices selectStr totalCells
  if l.length = 0 then Except.error "无有效的选择索引" else Except.ok l

/-! ## Image splitter geometry (App.tsx, `executeNode`, imageSplit branch) -/

/-- A decoded input raster: only its pixel dimensions matter to the splitter. -/
structure Raster where
  width : ℚ
  height : ℚ
deriving DecidableEq

/-- The source rectangle extracted for one selected cell:
`sx, sy` and the extracted width `sw` and height `sh`. -/
structure CellRect where
  sx : ℚ
  sy : ℚ
  sw : ℚ
  sh : ℚ
deriving DecidableEq

/-- `gridType === '3x3' ? 3 : 2` — columns (and rows) of the split grid. -/
def gridCols (gridType : String) : Nat := if gridType = "3x3" then 3 else 2

/-- The per-cell loop of the splitter.  For a 1-based index `n`:
`idx = n - 1`, `r = Math.floor(idx / cols)`, `c = idx % cols`,
`sx = c*cellW + trim`, `sy = r*cellH + trim`, `sw = cellW - trim*2`,
`sh = cellH - trim*2`; if `sw <= 0 || sh <= 0` the loop throws
`裁剪边距太大，超出格子尺寸`, otherwise it records the rectangle and continues. -/
def splitCellsLoop (cellW cellH trim : ℚ) (cols : Nat) : List Int → Except String (List CellRect)
  | [] => Except.ok []
  | n :: rest =>
    let idx := n - 1
    let r := idx.fdiv (cols : Int)
    let c := idx.tmod (cols : Int)
    let sw := cellW - trim * 2
    let sh := cellH - trim * 2
    if sw ≤ 0 ∨ sh ≤ 0 then Except.error "裁剪边距太大，超出格子尺寸"
    else
      match splitCellsLoop cellW cellH trim cols rest with
      | Except.error e => Except.error e
      | Except.ok rects =>
        Except.ok ({ sx := (c : ℚ) * cellW + trim, sy := (r : ℚ) * cellH + trim,
                     sw := sw, sh := sh } :: rects)

/-- The splitter handler after the image has been decoded:
`cols = rows = gridCols`, `cellW = img.width / cols`, `cellH = img.height / rows`,
`totalCells = cols * rows`, followed by cell selection and the per-cell loop. -/
def imageSplitCore (img : Raster) (gridType selectStr : String) (trim : ℚ) :
    Except String (List CellRect) :=
  let cols := gridCols gridType
  let cellW := img.width / (cols : ℚ)
  let cellH := img.height / (cols : ℚ)
  match imageSplitSelection selectStr (cols * cols) with
  | Except.error e => Except.error e
  | Except.ok indices => splitCellsLoop cellW cellH trim cols indices

/-- The splitter handler on the resolved input bundle: no input image is the
error `缺少输入图像`; otherwise only `inputs.images[0]` is decoded and split. -/
def imageSplitRun (images : List Raster) (gridType selectStr : String) (trim : ℚ) :
    Except String (List CellRect) :=
  match images with
  | [] => Except.error "缺少输入图像"
  | img :: _ => imageSplitCore img gridType selectStr trim

/-! ## Graph model and input resolver (App.tsx, `getIncomingData`) -/

/-- The data payload of a source node, restricted to the fields the input
resolver reads: textual `content`, artifact `url` and user `remark`. -/
structure NData where
  content : Option String
  url : Option String
  remark : Option String
deriving DecidableEq

/-- A graph node as seen by the input resolver. -/
structure GNode where
  id : String
  data : NData
deriving DecidableEq

/-- A graph edge: source and target node ids, the target handle label and the
optional order rank (`edge.data?.order` in the source). -/
structure GEdge where
  id : String
  source : String
  target : String
  targetHandle : Option String
  order : Option Int
deriving DecidableEq

/-- The sort key of an image edge: `(a.data?.order || 0)` — a missing order
behaves as `0`. -/
def edgeKey (e : GEdge) : Int := e.order.getD 0

/-- Replace an edge's optional order by its effective key, so a missing order
becomes an explicit `0`. -/
def normalizeOrder (e : GEdge) : GEdge := { e with order := some (edgeKey e) }

/-- Insert `a` into `l` before the first element whose key is at least
`edgeKey`-as-large; elements with a strictly smaller key are passed over, so an
element inserted earlier stays in front of later equal-key elements. -/
def insertByKey {α : Type} (key : α → Int) (a : α) : List α → List α
  | [] => [a]
  | b :: l => if key a ≤ key b then a :: b :: l else b :: insertByKey key a l

/-- Stable ascending sort by an integer key — the semantics ES2019 guarantees
for `Array.prototype.sort((a, b) => keyA - keyB)`. -/
def stableSortByKey {α : Type} (key : α → Int) : List α → List α
  | [] => []
  | a :: l => insertByKey key a (stableSortByKey key l)

/-- `state.nodes.find(n => n.id === nid)`. -/
def findNode (nodes : List GNode) (nid : String) : Option GNode :=
  nodes.find? (fun n => n.id = nid)

/-- The text-handle test of the resolver:
`!e.targetHandle || e.targetHandle === 'text' || e.targetHandle === 'anchor' || e.targetHandle === 'sequence'`
(an absent handle and the empty string are both falsy). -/
def isTextHandle (h : Option String) : Bool :=
  match h with
  | none => true
  | some s => s = "" || s = "text" || s = "anchor" || s = "sequence"

/-- `state.edges.filter(e => e.target === targetNodeId)`. -/
def incomingEdges (edges : List GEdge) (target : String) : List GEdge :=
  edges.filter (fun e => e.target = target)

/-- The incoming edges whose target handle is `"image"`. -/
def imageEdges (edges : List GEdge) (target : String) : List GEdge :=
  (incomingEdges edges target).filter (fun e => e.targetHandle = some "image")

/-- The image edges sorted by `(a.data?.order || 0) - (b.data?.order || 0)`. -/
def imageEdgesSorted (edges : List GEdge) (target : String) : List GEdge :=
  stableSortByKey edgeKey (imageEdges edges target)

/-- The artifact URL contributed by an edge's source node
(`sourceNode?.data?.url`, pushed only when truthy). -/
def sourceUrl (nodes : List GNode) (e : GEdge) : Option String :=
  (findNode nodes e.source).bind (fun n => truthyVal n.data.url)

/-- The remark contributed by an edge's source node: pushed only when the
source node's url is truthy (the remark push is nested inside the url push)
and the remark itself is truthy. -/
def sourceRemarkIfUrl (nodes : List GNode) (e : GEdge) : Option String :=
  (findNode nodes e.source).bind (fun n =>
    match truthyVal n.data.url with
    | some _ => truthyVal n.data.remark
    | none => none)

/-- The resolved input bundle of a target node. -/
structure ResolvedInputs where
  texts : List String
  images : List String
  imageRemarks : List String
deriving DecidableEq

/-- The input resolver `getIncomingData`: texts from text-handle edges in edge
collection order, image URLs and remarks from order-sorted image edges. -/
def getIncomingData (nodes : List GNode) (edges : List GEdge) (target : String) : ResolvedInputs :=
  { texts := ((incomingEdges edges target).filter (fun e => isTextHandle e.targetHandle)).filterMap
      (fun e => (findNode nodes e.source).bind (fun n => truthyVal n.data.content)),
    images := (imageEdgesSorted edges target).filterMap (sourceUrl nodes),
    imageRemarks := (imageEdgesSorted edges target).filterMap (sourceRemarkIfUrl nodes) }

/-! ## Graph store (store.ts, `useStore`) -/

/-- The node data fields the engine reads or writes.  `none` models an absent
(`undefined`) field. -/
structure NodeData where
  label : Option String
  content : Option String
  url : Option String
  remark : Option String
  status : Option String
  statusMsg : Option String
  progress : Option Int
  startTime : Option Int
  duration : Option ℚ
deriving DecidableEq

/-- A patch object passed to `updateNodeData`.  An outer `none` means the key
is absent from the patch; `some none` means the key is present with value
`undefined` (a JS spread overrides with `undefined` when the key is present,
as in `updateNodeData(id, { ..., duration: undefined })`). -/
structure NodePatch where
  label : Option (Option String)
  content : Option (Option String)
  url : Option (Option String)
  remark : Option (Option String)
  status : Option (Option String)
  statusMsg : Option (Option String)
  progress : Option (Option Int)
  startTime : Option (Option Int)
  duration : Option (Option ℚ)
deriving DecidableEq

/-- The patch with no keys present. -/
def emptyPatch : NodePatch :=
  { label := none, content := none, url := none, remark := none, status := none,
    statusMsg := none, progress := none, startTime := none, duration := none }

/-- JS `{ ...node.data, ...data }`: keys present in the patch override, keys
absent keep the base value. -/
def applyPatch (d : NodeData) (p : NodePatch) : NodeData :=
  { label := p.label.getD d.label,
    content := p.content.getD d.content,
    url := p.url.getD d.url,
    remark := p.remark.getD d.remark,
    status := p.status.getD d.status,
    statusMsg := p.statusMsg.getD d.statusMsg,
    progress := p.progress.getD d.progress,
    startTime := p.startTime.getD d.startTime,
    duration := p.duration.getD d.duration }

/-- JS `{ ...base, ...extra }` on two patch objects: keys present in `extra`
override keys of `base`. -/
def mergePatch (base extra : NodePatch) : NodePatch :=
  { label := extra.label.orElse (fun _ => base.label),
    content := extra.content.orElse (fun _ => base.content),
    url := extra.url.orElse (fun _ => base.url),
    remark := extra.remark.orElse (fun _ => base.remark),
    status := extra.status.orElse (fun _ => base.status),
    statusMsg := extra.statusMsg.orElse (fun _ => base.statusMsg),
    progress := extra.progress.orElse (fun _ => base.progress),
    startTime := extra.startTime.orElse (fun _ => base.startTime),
    duration := extra.duration.orElse (fun _ => base.duration) }

/-- A stored node: identity, type tag, layout position and data payload
(`{ ...node, data: ... }` keeps every non-data field). -/
structure StoreNode where
  id : String
  ntype : String
  posX : ℚ
  posY : ℚ
  data : NodeData
deriving DecidableEq

/-- The store state owned by `useStore`: the node and edge collections. -/
structure StoreState where
  nodes : List StoreNode
  edges : List GEdge
deriving DecidableEq

/-- `updateNodeData` of the store:
`nodes.map(node => node.id === nodeId ? { ...node, data: { ...node.data, ...data } } : node)`;
the edge collection is not touched. -/
def updateNodeData (st : StoreState) (nodeId : String) (p : NodePatch) : StoreState :=
  { st with
    nodes := st.nodes.map (fun n =>
      if n.id = nodeId then { n with data := applyPatch n.data p } else n) }

/-- `finalizeNode(nodeId, status, additionalData)`:
`updateNodeData(nodeId, { status, duration, ...additionalData })`. -/
def finalizeNodePatch (status : String) (duration : ℚ) (extra : NodePatch) : NodePatch :=
  mergePatch { emptyPatch with status := some (some status), duration := some (some duration) } extra

/-- The `try/catch` boundary of `executeNode`.  The body either finishes with a
final store, or throws with a message while the store is in some intermediate
state; the `catch` turns the throw into
`finalizeNode(nodeId, 'error', { statusMsg: err.message })` on that state. -/
def execCatchBoundary (nodeId : String) (duration : ℚ)
    (body : Except (String × StoreState) StoreState) : StoreState :=
  match body with
  | Except.ok st => st
  | Except.error (msg, st) =>
      updateNodeData st nodeId
        (finalizeNodePatch "error" duration { emptyPatch with statusMsg := some (some msg) })

/-! ## Video generation payloads (apiService.ts) -/

/-- The Veo request body built by `prepareVeoPayload` (fields the image-count
dispatch writes; `aspect` renders the source's aspect-ratio field). -/
structure VeoPayload where
  model : String
  aspect : String
  firstFrameUrl : String
  lastFrameUrl : String
  urls : Option (List String)
  prompt : String
  res : String
  durationSeconds : Option Int
  personGeneration : String
deriving DecidableEq

/-- The alternative request body returned for `model === 'sora-2'`. -/
structure SoraPayload where
  model : String
  prompt : String
  aspect : String
  url : String
  duration : Int
  size : String
deriving DecidableEq

/-- What `prepareVeoPayload` returns: a Veo body or the sora-2 body. -/
inductive GrsaiVideoPayload where
  | veo (p : VeoPayload)
  | sora (p : SoraPayload)
deriving DecidableEq

/-- `prepareVeoPayload` (apiService.ts): the positional image dispatch on
`urls.length` (1 → first frame, 2 → first/last pair, ≥3 → `urls.slice(0, 3)`,
0 → none), overridden for `model === 'sora-2'` by a body that carries only
`urls[0] || ""`. -/
def prepareVeoPayload (model prompt : String) (urls : List String) (aspect : String)
    (res : Option String) (durationSeconds : Option String) : GrsaiVideoPayload :=
  let base : VeoPayload :=
    { model := model, aspect := aspect,
      firstFrameUrl := "", lastFrameUrl := "", urls := none,
      prompt := prompt,
      res := jsOrStr res "720p",
      durationSeconds :=
        match durationSeconds with
        | some s => if s = "" then some 6 else jsParseInt s
        | none => some 6,
      personGeneration := if urls.length > 0 then "allow_adult" else "allow_all" }
  let withImages : VeoPayload :=
    if urls.length = 1 then
      { base with firstFrameUrl := urls.headD "", lastFrameUrl := "", urls := none }
    else if urls.length = 2 then
      { base with firstFrameUrl := urls.headD "", lastFrameUrl := urls.getD 1 "", urls := none }
    else if urls.length ≥ 3 then
      { base with firstFrameUrl := "", lastFrameUrl := "", urls := some (urls.take 3) }
    else
      { base with firstFrameUrl := "", lastFrameUrl := "", urls := none }
  if model = "sora-2" then
    GrsaiVideoPayload.sora
      { model := model, prompt := prompt, aspect := aspect,
        url := urls.headD "", duration := 10, size := "small" }
  else GrsaiVideoPayload.veo withImages

/-- The request body built by `comflyVideo` (apiService.ts). -/
structure ComflyVideoPayload where
  prompt : String
  model : String
  aspect : String
  images : Option (List String)
  enable_upsample : Option Bool
deriving DecidableEq

/-- `comflyVideo`'s payload:
`images: urls && urls.length > 0 ? urls : undefined` — the full resolved list
is submitted whenever it is non-empty; `aspect_ratio` maps `1:1` to `16:9`. -/
def comflyVideoPayload (model prompt : String) (urls : Option (List String)) (aspect : String)
    (enable_upsample : Option Bool) : ComflyVideoPayload :=
  { prompt := prompt, model := model,
    aspect := if aspect = "1:1" then "16:9" else aspect,
    images :=
      match urls with
      | some us => if us.length > 0 then some us else none
      | none => none,
    enable_upsample := enable_upsample }

/-! ## Poll callbacks (App.tsx, the four `poll` closures)

Each long-running operation installs an `async` callback `poll` that reads one
poll response and either finalizes the node with an error, proceeds to the
completion step, or writes progress and reschedules itself with `setTimeout`.
A `PollAction` records which of these the callback body chooses; only
`continuePolling` reschedules, so any other action stops the poll cycle. -/

/-- The effect chosen by one run of a poll callback body. -/
inductive PollAction where
  | finalizeError (statusMsg : String)
  | completeImage (remoteUrl : Option String)
  | completeVideo (remoteUrl : Option String)
  | continuePolling (progress : Option Int) (statusMsg : String) (delayMs : Nat)
deriving DecidableEq

/-- Truthiness of an optional string as a Bool. -/
def truthyB (o : Option String) : Bool := (truthyVal o).isSome

/-- JS `String.prototype.toUpperCase` on ASCII content, character by
character. -/
def jsToUpper (s : String) : String := String.mk (s.toList.map Char.toUpper)

/-- `(result.status || result.state || '').toString().toUpperCase()`. -/
def rawStatusOf (status state : Option String) : String :=
  jsToUpper (jsOrStr status (jsOrStr state ""))

/-- The statuses treated as terminal success by the Comfly poll callbacks. -/
def doneStatuses : List String := ["SUCCESS", "FINISHED", "SUCCEEDED", "COMPLETED", "DONE"]

/-- The statuses treated as failure by the Comfly image poll callback. -/
def comflyImageFailedStatuses : List String := ["FAILED", "ERROR", "FAILURE"]

/-- Remove the first occurrence of a character, JS `s.replace('%', '')`. -/
def removeFirst (c : Char) : List Char → List Char
  | [] => []
  | x :: xs => if x = c then xs else x :: removeFirst c xs

/-- `taskInfo.progress || '0%'`. -/
def comflyProgressStr (p : Option String) : String := jsOrStr p "0%"

/-- `parseInt(progStr.replace('%', ''), 10) || 0`. -/
def comflyProgressNum (p : Option String) : Int :=
  (jsParseInt (String.mk (removeFirst '%' (comflyProgressStr p).toList))).getD 0

/-- The GRSAI poll status message `` `${result.progress}%` `` (a missing
progress interpolates as the string `undefined`). -/
def progressPercentMsg (p : Option Int) : String :=
  (match p with
   | some n => toString n
   | none => "undefined") ++ "%"

/-- One result entry of a GRSAI poll response (`results[i]`). -/
structure GrsaiEntry where
  url : Option String
deriving DecidableEq

/-- A GRSAI poll response (`pollGrsaiResult` returns `data.data`).  The
handlers read `status`, `progress`, `results?.[0]?.url` and `url`;
`failReason` stands for a failure reason the provider may report — the
callbacks never read it. -/
structure GrsaiPollResp where
  status : Option String
  progress : Option Int
  results : Option (List GrsaiEntry)
  url : Option String
  failReason : Option String
deriving DecidableEq

/-- The GRSAI image-generation poll callback body (App.tsx, aiImageGen GRSAI
branch): `failed` → error `'Violated/Failed'`; `succeeded` → fetch
`result.results?.[0]?.url`; otherwise write progress and reschedule in 3000 ms. -/
def grsaiImagePollStep (r : GrsaiPollResp) : PollAction :=
  if r.status = some "failed" then PollAction.finalizeError "Violated/Failed"
  else if r.status = some "succeeded" then
    PollAction.completeImage ((r.results.bind List.head?).bind GrsaiEntry.url)
  else
    PollAction.continuePolling r.progress (progressPercentMsg r.progress) 3000

/-- The GRSAI video-generation poll callback body (App.tsx, aiVideoGen GRSAI
branch): `failed` → error `'Generation Failed'`; `succeeded` → use
`result.url || result.results?.[0]?.url`; otherwise progress, 3000 ms. -/
def grsaiVideoPollStep (r : GrsaiPollResp) : PollAction :=
  if r.status = some "failed" then PollAction.finalizeError "Generation Failed"
  else if r.status = some "succeeded" then
    PollAction.completeVideo (jsOrOptStr r.url ((r.results.bind List.head?).bind GrsaiEntry.url))
  else
    PollAction.continuePolling r.progress (progressPercentMsg r.progress) 3000

/-- The nested `data.data` list of a Comfly image task response. -/
structure ComflyInner where
  url : Option String
deriving DecidableEq

/-- `taskInfo.data` of a Comfly image task response. -/
structure ComflyTaskData where
  dataList : Option (List ComflyInner)
deriving DecidableEq

/-- The Comfly image task info (`resObj.data || resObj`). -/
structure ComflyTaskInfo where
  status : Option String
  state : Option String
  fail_reason : Option String
  dataField : Option ComflyTaskData
  url : Option String
  result : Option String
  progress : Option String
deriving DecidableEq

/-- `taskInfo.data?.data?.[0]?.url || taskInfo.url || taskInfo.result`. -/
def comflyImageRemoteUrl (t : ComflyTaskInfo) : Option String :=
  jsOrOptStr (((t.dataField.bind ComflyTaskData.dataList).bind List.head?).bind ComflyInner.url)
    (jsOrOptStr t.url t.result)

/-- The Comfly async image poll callback body (App.tsx, aiImageGen Comfly
async branch): a failed status → error `taskInfo.fail_reason || 'Generation Failed'`;
done or a truthy remote URL → complete (error `'No URL found in success result'`
when the URL is falsy); otherwise progress and reschedule in 3000 ms. -/
def comflyImagePollStep (t : ComflyTaskInfo) : PollAction :=
  let rawStatus := rawStatusOf t.status t.state
  let isDone := rawStatus ∈ doneStatuses
  let isFailed := rawStatus ∈ comflyImageFailedStatuses
  let remoteUrl := truthyVal (comflyImageRemoteUrl t)
  if isFailed then PollAction.finalizeError (jsOrStr t.fail_reason "Generation Failed")
  else if isDone ∨ remoteUrl.isSome then
    match remoteUrl with
    | none => PollAction.finalizeError "No URL found in success result"
    | some u => PollAction.completeImage (some u)
  else
    PollAction.continuePolling (some (comflyProgressNum t.progress))
      (jsOrStr (some (comflyProgressStr t.progress)) "Processing...") 3000

/-- `result.data` of a Comfly video poll response. -/
structure ComflyVideoData where
  output : Option String
  url : Option String
  outputs : Option (List String)
deriving DecidableEq

/-- A Comfly video poll response (`pollComflyResult`). -/
structure ComflyVideoResp where
  status : Option String
  state : Option String
  fail_reason : Option String
  dataField : Option ComflyVideoData
  progress : Option String
deriving DecidableEq

/-- `result.data?.output || result.data?.url || (Array.isArray(result.data?.outputs) ? result.data.outputs[0] : result.data?.outputs)`. -/
def comflyVideoUrl (d : Option ComflyVideoData) : Option String :=
  jsOrOptStr (d.bind ComflyVideoData.output)
    (jsOrOptStr (d.bind ComflyVideoData.url) ((d.bind ComflyVideoData.outputs).bind List.head?))

/-- The Comfly video poll callback body (App.tsx, aiVideoGen Comfly branch):
`FAILURE`/`FAILED` → error `result.fail_reason || 'Generation Failed'`;
done or `result.data && (result.data.output || result.data.url)` → complete;
otherwise progress and reschedule in 4000 ms. -/
def comflyVideoPollStep (r : ComflyVideoResp) : PollAction :=
  let rawStatus := rawStatusOf r.status r.state
  let isDone := rawStatus ∈ doneStatuses
  if rawStatus = "FAILURE" ∨ rawStatus = "FAILED" then
    PollAction.finalizeError (jsOrStr r.fail_reason "Generation Failed")
  else if isDone ∨ (match r.dataField with
      | some d => truthyB d.output || truthyB d.url
      | none => false) = true then
    PollAction.completeVideo (comflyVideoUrl r.dataField)
  else
    PollAction.continuePolling (some (comflyProgressNum r.progress))
      (jsOrStr (some (comflyProgressStr r.progress)) "In Progress") 4000

/-! Each `poll` closure is an `async` function invoked without `await` and
containing no `try/catch`.  If the awaited poll request itself rejects (for
example a network failure), the rejection escapes the callback as an unhandled
promise rejection: the body after the `await` never runs and no node update of
any kind is performed.  A runner models one invocation of a callback on the
settled poll request: `none` means the callback aborted without producing any
action. -/

/-- One invocation of the GRSAI image poll callback on a settled poll request. -/
def runGrsaiImagePoll (fetched : Except String GrsaiPollResp) : Option PollAction :=
  match fetched with
  | Except.error _ => none
  | Except.ok r => some (grsaiImagePollStep r)

/-- One invocation of the GRSAI video poll callback on a settled poll request. -/
def runGrsaiVideoPoll (fetched : Except String GrsaiPollResp) : Option PollAction :=
  match fetched with
  | Except.error _ => none
  | Except.ok r => some (grsaiVideoPollStep r)

/-- One invocation of the Comfly image poll callback on a settled poll request. -/
def runComflyImagePoll (fetched : Except String ComflyTaskInfo) : Option PollAction :=
  match fetched with
  | Except.error _ => none
  | Except.ok t => some (comflyImagePollStep t)

/-- One invocation of the Comfly video poll callback on a settled poll request. -/
def runComflyVideoPoll (fetched : Except String ComflyVideoResp) : Option PollAction :=
  match fetched with
  | Except.error _ => none
  | Except.ok r => some (comflyVideoPollStep r)

/-! ## Helper lemmas -/

/-- The padding loop appends exactly `targetLen - length` copies of the last
element of a non-empty list. -/
theorem padShots_eq_append (last : String) :
    ∀ (n : Nat) (S : List String) (T : Nat), S.getLast? = some last → T - S.length = n →
      padShots S T = S ++ List.replicate (T - S.length) last := by
  intro n
  induction n with
  | zero =>
    intro S T hL hn
    rw [padShots]
    rw [dif_neg (by omega : ¬ S.length < T)]
    rw [hn]
    simp
  | succ k ih =>
    intro S T hL hn
    rw [padShots]
    rw [dif_pos (by omega : S.length < T), hL]
    show padShots (S ++ [last]) T = S ++ List.replicate (T - S.length) last
    rw [ih (S ++ [last]) T (by simp) (by simp; omega)]
    have h2 : T - S.length = k + 1 := hn
    have h3 : T - (S ++ [last]).length = k := by simp; omega
    rw [h2, h3, List.append_assoc]
    simp [List.replicate_succ]

/-- Mapping a partial function and filtering the optional results equals
`filterMap` followed by `filter`. -/
theorem mapFilter_filterMap {α β : Type} (f : α → Option β) (p : β → Bool) (l : List α) :
    ((l.map f).filter (fun o => o.any p)).filterMap id
      = (l.filterMap f).filter p := by
  induction l with
  | nil => rfl
  | cons a l ih =>
    cases h : f a with
    | none => simp [h, ih]
    | some b =>
      by_cases hp : p b
      · simp [h, hp, ih]
      · simp [h, hp, ih]

/-! ## Claim theorems -/

/-- C1: for the prompt-merger handler with a non-empty shot list `S` and grid
type `g`, the resolved shot sequence equals the first `T` elements of `S`
extended by repeating its last element, where `T = 9` when `g` is `3x3` and
`T = 4` when `g` is `2x2`. -/
theorem promptMerger_resolvedShotSequence (S : List String) (g : String) (hS : S ≠ [])
    (hg : g = "3x3" ∨ g = "2x2") :
    resolveShotSequence S g =
      Except.ok ((S ++ List.replicate ((if g = "3x3" then 9 else 4) - S.length) (S.getLast hS)).take
        (if g = "3x3" then 9 else 4)) := by
  have hlen : ¬ S.length = 0 := by simpa using hS
  unfold resolveShotSequence
  rw [if_neg hlen]
  show Except.ok ((padShots S (if g = "3x3" then 9 else 4)).take (if g = "3x3" then 9 else 4)) = _
  rw [padShots_eq_append (S.getLast hS) ((if g = "3x3" then 9 else 4) - S.length) S _
    (List.getLast?_eq_getLast S hS) rfl]

/-- Witness for C1: shots `[A, B]` on a 3×3 grid resolve to the 9-shot
sequence `[A, B, B, B, B, B, B, B, B]`. -/
theorem promptMerger_resolvedShotSequence_witness :
    resolveShotSequence ["A", "B"] "3x3" =
      Except.ok ["A", "B", "B", "B", "B", "B", "B", "B", "B"] := by
  rw [promptMerger_resolvedShotSequence ["A", "B"] "3x3" (by decide) (Or.inl rfl)]
  rfl

/-- C2: the image-splitter's selected cell list on `totalCells` cells is all of
`1..totalCells` when the selection string trims to `"0"`, and otherwise the
integers parsed from the string restricted to `[1, totalCells]`; an empty
resulting selection makes the handler fail. -/
theorem imageSplitter_cellSelection (selectStr : String) (totalCells : Nat) :
    (jsTrim selectStr = "0" →
      selectedIndices selectStr totalCells = (List.range totalCells).map (fun i => (i : Int) + 1)) ∧
    (jsTrim selectStr ≠ "0" →
      selectedIndices selectStr totalCells =
        ((selectTokens selectStr).filterMap jsParseInt).filter (inRangeSel totalCells)) ∧
    (selectedIndices selectStr totalCells = [] →
      imageSplitSelection selectStr totalCells = Except.error "无有效的选择索引") := by
  refine ⟨fun h => ?_, fun h => ?_, fun h => ?_⟩
  · simp [selectedIndices, h]
  · rw [selectedIndices, if_neg h]
    exact mapFilter_filterMap jsParseInt (inRangeSel totalCells) (selectTokens selectStr)
  · simp [imageSplitSelection, h]

/-- Witness for C2: `"0"` on a 3×3 grid selects `[1..9]`; `"2,5,11"` selects
`[2, 5]` (11 is out of range); an all-separator string selects nothing and
errors. -/
theorem imageSplitter_cellSelection_witness :
    selectedIndices "0" 9 = [1, 2, 3, 4, 5, 6, 7, 8, 9] ∧
    selectedIndices "2,5,11" 9 = [2, 5] ∧
    imageSplitSelection "," 9 = Except.error "无有效的选择索引" := by
  refine ⟨?_, ?_, ?_⟩
  · rw [(imageSplitter_cellSelection "0" 9).1 (by decide)]
    decide
  · rw [(imageSplitter_cellSelection "2,5,11" 9).2.1 (by decide)]
    decide
  · exact (imageSplitter_cellSelection "," 9).2.2 (by decide)

/-- On a non-empty index list the splitter loop fails as soon as an extracted
dimension is non-positive. -/
theorem splitCellsLoop_error (cellW cellH trim : ℚ) (cols : Nat) (n : Int) (rest : List Int)
    (hdim : cellW - trim * 2 ≤ 0 ∨ cellH - trim * 2 ≤ 0) :
    splitCellsLoop cellW cellH trim cols (n :: rest) = Except.error "裁剪边距太大，超出格子尺寸" := by
  simp only [splitCellsLoop]
  rw [if_pos hdim]

/-- Every rectangle produced by the splitter loop has the fixed extracted
dimensions. -/
theorem splitCellsLoop_ok_dims (cellW cellH trim : ℚ) (cols : Nat) :
    ∀ (l : List Int) (rects : List CellRect),
      splitCellsLoop cellW cellH trim cols l = Except.ok rects →
      ∀ rct ∈ rects, rct.sw = cellW - trim * 2 ∧ rct.sh = cellH - trim * 2 := by
  intro l
  induction l with
  | nil =>
    intro rects h rct hr
    simp only [splitCellsLoop, Except.ok.injEq] at h
    subst h
    simp at hr
  | cons n rest ih =>
    intro rects h rct hr
    simp only [splitCellsLoop] at h
    by_cases hdim : cellW - trim * 2 ≤ 0 ∨ cellH - trim * 2 ≤ 0
    · rw [if_pos hdim] at h
      exact absurd h (by simp)
    · rw [if_neg hdim] at h
      cases hrec : splitCellsLoop cellW cellH trim cols rest with
      | error e => rw [hrec] at h; simp at h
      | ok rs =>
        rw [hrec] at h
        simp only [Except.ok.injEq] at h
        subst h
        rcases List.mem_cons.mp hr with rfl | hmem
        · exact ⟨rfl, rfl⟩
        · exact ih rs hrec rct hmem

/-- An accepted selection is non-empty. -/
theorem imageSplitSelection_ok_ne_nil (selectStr : String) (totalCells : Nat) (indices : List Int)
    (h : imageSplitSelection selectStr totalCells = Except.ok indices) : indices ≠ [] := by
  unfold imageSplitSelection at h
  by_cases hl : (selectedIndices selectStr totalCells).length = 0
  · rw [if_pos hl] at h
    exact absurd h (by simp)
  · rw [if_neg hl] at h
    simp only [Except.ok.injEq] at h
    subst h
    intro hnil
    exact hl (by simp [hnil])

/-- C3: for every selected cell of the image splitter the extracted rectangle
has dimensions `(cellWidth - 2*trim, cellHeight - 2*trim)`, and whenever the
selection succeeds but either extracted dimension is non-positive the handler
raises the hard error `裁剪边距太大，超出格子尺寸` instead of producing cells. -/
theorem imageSplitter_trimDimensions (img : Raster) (g sel : String) (trim : ℚ) :
    (∀ indices, imageSplitSelection sel (gridCols g * gridCols g) = Except.ok indices →
      (img.width / (gridCols g : ℚ) - 2 * trim ≤ 0 ∨
        img.height / (gridCols g : ℚ) - 2 * trim ≤ 0) →
      imageSplitCore img g sel trim = Except.error "裁剪边距太大，超出格子尺寸") ∧
    (∀ rects, imageSplitCore img g sel trim = Except.ok rects →
      ∀ rct ∈ rects, rct.sw = img.width / (gridCols g : ℚ) - 2 * trim ∧
        rct.sh = img.height / (gridCols g : ℚ) - 2 * trim) := by
  constructor
  · intro indices hsel hdim
    obtain ⟨n, rest, rfl⟩ := List.exists_cons_of_ne_nil
      (imageSplitSelection_ok_ne_nil sel _ indices hsel)
    have hdim2 : img.width / (gridCols g : ℚ) - trim * 2 ≤ 0 ∨
        img.height / (gridCols g : ℚ) - trim * 2 ≤ 0 := by
      rcases hdim with h | h
      · exact Or.inl (by linarith)
      · exact Or.inr (by linarith)
    show (match imageSplitSelection sel (gridCols g * gridCols g) with
      | Except.error e => Except.error e
      | Except.ok indices =>
          splitCellsLoop (img.width / (gridCols g : ℚ)) (img.height / (gridCols g : ℚ)) trim
            (gridCols g) indices) = Except.error "裁剪边距太大，超出格子尺寸"
    rw [hsel]
    exact splitCellsLoop_error _ _ _ _ _ _ hdim2
  · intro rects hok rct hmem
    have hok2 : (match imageSplitSelection sel (gridCols g * gridCols g) with
      | Except.error e => Except.error e
      | Except.ok indices =>
          splitCellsLoop (img.width / (gridCols g : ℚ)) (img.height / (gridCols g : ℚ)) trim
            (gridCols g) indices) = Except.ok rects := hok
    cases hsel : imageSplitSelection sel (gridCols g * gridCols g) with
    | error e => rw [hsel] at hok2; simp at hok2
    | ok indices =>
      rw [hsel] at hok2
      have hd := splitCellsLoop_ok_dims _ _ _ _ indices rects hok2 rct hmem
      constructor
      · rw [hd.1]; ring
      · rw [hd.2]; ring

/-- Witness for C3: a 600×600 image on a 2×2 grid (cells 300×300) with
`trim = 160` raises the trim-too-large error. -/
theorem imageSplitter_trimDimensions_witness :
    imageSplitCore { width := 600, height := 600 } "2x2" "0" 160 =
      Except.error "裁剪边距太大，超出格子尺寸" := by
  refine (imageSplitter_trimDimensions { width := 600, height := 600 } "2x2" "0" 160).1
    [1, 2, 3, 4] (by rfl) (Or.inl (by rw [show gridCols "2x2" = 2 from rfl]; norm_num))

/-- C9: the image splitter decodes and partitions only the first image of the
resolved input bundle: any images after the first have no effect on the
produced cells. -/
theorem imageSplitter_firstImageOnly (img : Raster) (rest rest' : List Raster) (g sel : String)
    (trim : ℚ) :
    imageSplitRun (img :: rest) g sel trim = imageSplitRun (img :: rest') g sel trim ∧
    imageSplitRun (img :: rest) g sel trim = imageSplitCore img g sel trim :=
  ⟨rfl, rfl⟩

/-- Membership in an insertion. -/
theorem mem_insertByKey {α : Type} (key : α → Int) (a x : α) (l : List α) :
    x ∈ insertByKey key a l ↔ x = a ∨ x ∈ l := by
  induction l with
  | nil => simp [insertByKey]
  | cons b l ih =>
    simp only [insertByKey]
    by_cases h : key a ≤ key b
    · rw [if_pos h]
      simp [List.mem_cons]
    · rw [if_neg h]
      simp only [List.mem_cons, ih]
      tauto

/-- Insertion preserves non-decreasing order of keys. -/
theorem pairwise_insertByKey {α : Type} (key : α → Int) (a : α) (l : List α)
    (h : l.Pairwise (fun x y => key x ≤ key y)) :
    (insertByKey key a l).Pairwise (fun x y => key x ≤ key y) := by
  induction l with
  | nil => simp [insertByKey]
  | cons b l ih =>
    rcases List.pairwise_cons.mp h with ⟨hb, hl⟩
    simp only [insertByKey]
    by_cases hab : key a ≤ key b
    · rw [if_pos hab]
      refine List.Pairwise.cons ?_ h
      intro x hx
      rcases List.mem_cons.mp hx with rfl | hx
      · exact hab
      · exact le_trans hab (hb x hx)
    · rw [if_neg hab]
      refine List.Pairwise.cons ?_ (ih hl)
      intro x hx
      rcases (mem_insertByKey key a x l).mp hx with rfl | hx
      · omega
      · exact hb x hx

/-- The stable sort produces keys in non-decreasing order. -/
theorem pairwise_stableSortByKey {α : Type} (key : α → Int) (l : List α) :
    (stableSortByKey key l).Pairwise (fun x y => key x ≤ key y) := by
  induction l with
  | nil => simp [stableSortByKey]
  | cons a l ih => exact pairwise_insertByKey key a _ ih

/-- Filtering an insertion at the inserted element's key puts the element in
front; at any other key the insertion is invisible. -/
theorem filter_insertByKey {α : Type} (key : α → Int) (k : Int) (a : α) (l : List α) :
    (insertByKey key a l).filter (fun x => key x == k) =
      if key a = k then a :: l.filter (fun x => key x == k)
      else l.filter (fun x => key x == k) := by
  induction l with
  | nil =>
    by_cases h : key a = k
    · simp [insertByKey, h]
    · simp [insertByKey, h]
  | cons b l ih =>
    simp only [insertByKey]
    by_cases hab : key a ≤ key b
    · rw [if_pos hab]
      by_cases h : key a = k
      · simp [List.filter_cons, h]
      · simp [List.filter_cons, h]
    · rw [if_neg hab]
      rw [List.filter_cons, List.filter_cons, ih]
      by_cases hbk : key b = k
      · by_cases hak : key a = k
        · omega
        · simp [hbk, hak]
      · by_cases hak : key a = k
        · simp [hbk, hak]
        · simp [hbk, hak]

/-- Stability of the sort: at every fixed key value, the sorted list restricts
to exactly the input's subsequence of that key, in input order. -/
theorem filter_stableSortByKey {α : Type} (key : α → Int) (k : Int) (l : List α) :
    (stableSortByKey key l).filter (fun x => key x == k) = l.filter (fun x => key x == k) := by
  induction l with
  | nil => rfl
  | cons a l ih =>
    simp only [stableSortByKey]
    rw [filter_insertByKey, List.filter_cons]
    by_cases h : key a = k
    · simp [h, ih]
    · simp [h, ih]

/-- Insertion commutes with a key-preserving map. -/
theorem insertByKey_map {α : Type} (key : α → Int) (f : α → α) (hf : ∀ x, key (f x) = key x)
    (a : α) (l : List α) :
    insertByKey key (f a) (l.map f) = (insertByKey key a l).map f := by
  induction l with
  | nil => rfl
  | cons b l ih =>
    simp only [List.map_cons, insertByKey, hf]
    by_cases h : key a ≤ key b
    · rw [if_pos h, if_pos h]
      rfl
    · rw [if_neg h, if_neg h]
      simp [ih]

/-- The stable sort commutes with a key-preserving map. -/
theorem stableSortByKey_map {α : Type} (key : α → Int) (f : α → α) (hf : ∀ x, key (f x) = key x)
    (l : List α) :
    stableSortByKey key (l.map f) = (stableSortByKey key l).map f := by
  induction l with
  | nil => rfl
  | cons a l ih =>
    simp only [List.map_cons, stableSortByKey, ih]
    exact insertByKey_map key f hf a _

/-- Normalizing the orders of the edge collection commutes with image-edge
extraction and sorting: a missing order is interchangeable with an explicit 0. -/
theorem imageEdgesSorted_normalizeOrder (edges : List GEdge) (t : String) :
    imageEdgesSorted (edges.map normalizeOrder) t = (imageEdgesSorted edges t).map normalizeOrder := by
  unfold imageEdgesSorted imageEdges incomingEdges
  rw [List.filter_map, List.filter_map]
  have h1 : (fun e => decide (e.target = t)) ∘ normalizeOrder = fun e => decide (e.target = t) := rfl
  have h2 : (fun e => decide (e.targetHandle = some "image")) ∘ normalizeOrder =
      fun e => decide (e.targetHandle = some "image") := rfl
  rw [h1, h2]
  exact stableSortByKey_map edgeKey normalizeOrder (fun e => rfl) _

/-- C4: the input resolver returns the image-handle source URLs in the order of
a stable ascending sort of the image edges by their order value; a missing
order behaves as `0`, and edges with equal order keep their relative position
in the edge collection. -/
theorem inputResolver_imageOrderStable (nodes : List GNode) (edges : List GEdge) (t : String) :
    ((getIncomingData nodes edges t).images = (imageEdgesSorted edges t).filterMap (sourceUrl nodes)) ∧
    (imageEdgesSorted edges t).Pairwise (fun a b => edgeKey a ≤ edgeKey b) ∧
    (∀ k : Int, (imageEdgesSorted edges t).filter (fun e => edgeKey e == k) =
      (imageEdges edges t).filter (fun e => edgeKey e == k)) ∧
    (imageEdgesSorted (edges.map normalizeOrder) t =
      (imageEdgesSorted edges t).map normalizeOrder) ∧
    (∀ e : GEdge, e.order = none → edgeKey e = 0) := by
  refine ⟨rfl, pairwise_stableSortByKey edgeKey _,
    fun k => filter_stableSortByKey edgeKey k _,
    imageEdgesSorted_normalizeOrder edges t,
    fun e he => ?_⟩
  simp [edgeKey, he]

/-- Witness for C4: an order-2 edge, an orderless edge and another order-2 edge
resolve as orderless first (order 0), then the two order-2 edges in edge-array
order. -/
theorem inputResolver_imageOrderStable_witness :
    edgeKey { id := "e2", source := "s2", target := "t",
              targetHandle := some "image", order := none } = 0 ∧
    (getIncomingData
      [ { id := "s1", data := { content := none, url := some "u1", remark := none } },
        { id := "s2", data := { content := none, url := some "u2", remark := none } },
        { id := "s3", data := { content := none, url := some "u3", remark := none } } ]
      [ { id := "e1", source := "s1", target := "t", targetHandle := some "image", order := some 2 },
        { id := "e2", source := "s2", target := "t", targetHandle := some "image", order := none },
        { id := "e3", source := "s3", target := "t", targetHandle := some "image", order := some 2 } ]
      "t").images = ["u2", "u1", "u3"] := by
  constructor
  · exact (inputResolver_imageOrderStable [] [] "t").2.2.2.2
      { id := "e2", source := "s2", target := "t", targetHandle := some "image", order := none } rfl
  · rw [(inputResolver_imageOrderStable _ _ _).1]
    decide

/-- C10: `updateNodeData` changes only the data fields named in the patch on
the node with the given id: the edge collection and every other node are
unchanged, the target node keeps its identity, type and position, and every
data field absent from the patch keeps its previous value. -/
theorem updateNodeData_frameEffect (st : StoreState) (nodeId : String) (p : NodePatch) :
    ((updateNodeData st nodeId p).edges = st.edges) ∧
    ((updateNodeData st nodeId p).nodes.length = st.nodes.length) ∧
    (∀ i : Nat, ∀ n : StoreNode, st.nodes[i]? = some n → n.id ≠ nodeId →
      (updateNodeData st nodeId p).nodes[i]? = some n) ∧
    (∀ i : Nat, ∀ n : StoreNode, st.nodes[i]? = some n → n.id = nodeId →
      (updateNodeData st nodeId p).nodes[i]? = some { n with data := applyPatch n.data p }) ∧
    (∀ d : NodeData,
      (p.label = none → (applyPatch d p).label = d.label) ∧
      (p.content = none → (applyPatch d p).content = d.content) ∧
      (p.url = none → (applyPatch d p).url = d.url) ∧
      (p.remark = none → (applyPatch d p).remark = d.remark) ∧
      (p.status = none → (applyPatch d p).status = d.status) ∧
      (p.statusMsg = none → (applyPatch d p).statusMsg = d.statusMsg) ∧
      (p.progress = none → (applyPatch d p).progress = d.progress) ∧
      (p.startTime = none → (applyPatch d p).startTime = d.startTime) ∧
      (p.duration = none → (applyPatch d p).duration = d.duration)) := by
  refine ⟨rfl, by simp [updateNodeData], ?_, ?_, ?_⟩
  · intro i n hn hid
    simp only [updateNodeData, List.getElem?_map, hn, Option.map_some']
    rw [if_neg hid]
  · intro i n hn hid
    simp only [updateNodeData, List.getElem?_map, hn, Option.map_some']
    rw [if_pos hid]
  · intro d
    refine ⟨fun h => ?_, fun h => ?_, fun h => ?_, fun h => ?_, fun h => ?_, fun h => ?_,
      fun h => ?_, fun h => ?_, fun h => ?_⟩
    all_goals simp [applyPatch, h]

/-- Witness for C10: patching only the status of node `a` in a two-node store
leaves node `b` and the edges untouched and preserves the other data fields of
`a`. -/
theorem updateNodeData_frameEffect_witness :
    (updateNodeData
      { nodes :=
          [ { id := "a", ntype := "aiImageGen", posX := 0, posY := 0,
              data := { label := some "A", content := none, url := some "uA", remark := none,
                        status := some "idle", statusMsg := none, progress := some 0,
                        startTime := none, duration := none } },
            { id := "b", ntype := "inputText", posX := 1, posY := 2,
              data := { label := some "B", content := some "hello", url := none, remark := none,
                        status := some "idle", statusMsg := none, progress := none,
                        startTime := none, duration := none } } ],
        edges := [ { id := "e", source := "a", target := "b",
                     targetHandle := some "text", order := none } ] }
      "a" { emptyPatch with status := some (some "loading") }).nodes[1]? =
      some { id := "b", ntype := "inputText", posX := 1, posY := 2,
             data := { label := some "B", content := some "hello", url := none, remark := none,
                       status := some "idle", statusMsg := none, progress := none,
                       startTime := none, duration := none } } ∧
    (applyPatch
      { label := some "A", content := none, url := some "uA", remark := none,
        status := some "idle", statusMsg := none, progress := some 0,
        startTime := none, duration := none }
      { emptyPatch with status := some (some "loading") }).url = some "uA" := by
  constructor
  · exact (updateNodeData_frameEffect _ "a" _).2.2.1 1 _ rfl (by decide)
  · exact ((updateNodeData_frameEffect
      { nodes := [], edges := [] } "a" { emptyPatch with status := some (some "loading") }).2.2.2.2
      _).2.2.1 rfl

/-- C8 (evaluation at the failing input): with two image edges whose sources
carry urls `u1` (no remark) and `u2` (remark `R2`), the resolver compacts the
remark list — `R2` lands at position 0 of `imageRemarks` while its image `u2`
is at position 1 of `images`, so the lists are not position-aligned. -/
theorem inputResolver_remarkCompaction_eval :
    (getIncomingData
      [ { id := "s1", data := { content := none, url := some "u1", remark := none } },
        { id := "s2", data := { content := none, url := some "u2", remark := some "R2" } } ]
      [ { id := "e1", source := "s1", target := "t", targetHandle := some "image", order := some 1 },
        { id := "e2", source := "s2", target := "t", targetHandle := some "image", order := some 2 } ]
      "t").images = ["u1", "u2"] ∧
    (getIncomingData
      [ { id := "s1", data := { content := none, url := some "u1", remark := none } },
        { id := "s2", data := { content := none, url := some "u2", remark := some "R2" } } ]
      [ { id := "e1", source := "s1", target := "t", targetHandle := some "image", order := some 1 },
        { id := "e2", source := "s2", target := "t", targetHandle := some "image", order := some 2 } ]
      "t").imageRemarks = ["R2"] := by
  constructor
  · decide
  · decide

/-- C5 counterexample: on the Comfly provider path with four resolved images,
the submitted image list is the full list, not its truncation to the first
three — refuting the claim that both provider paths truncate a reference set
to 3 images. -/
theorem videoGen_comflyNoTruncation_cex :
    (comflyVideoPayload "veo3.1-fast" "p" (some ["a", "b", "c", "d"]) "16:9" none).images =
      some ["a", "b", "c", "d"] ∧
    (comflyVideoPayload "veo3.1-fast" "p" (some ["a", "b", "c", "d"]) "16:9" none).images ≠
      some ["a", "b", "c"] := by
  constructor
  · rfl
  · decide

/-- C5 (amended): on the GRSAI Veo path (model other than `sora-2`) the
submitted images are determined by the resolved image count — 0 none,
1 first frame, 2 first/last pair, ≥3 reference set truncated to 3 — while the
`sora-2` body carries only the first URL, and the Comfly path submits the full
resolved list (absent when empty). -/
theorem videoGen_imageCountSemantics_amended (model prompt : String) (urls : List String)
    (ar : String) (res durationSeconds : Option String) (ups : Option Bool)
    (hm : model ≠ "sora-2") :
    (∃ p : VeoPayload,
      prepareVeoPayload model prompt urls ar res durationSeconds = GrsaiVideoPayload.veo p ∧
      (urls.length = 0 → p.firstFrameUrl = "" ∧ p.lastFrameUrl = "" ∧ p.urls = none) ∧
      (∀ u, urls = [u] → p.firstFrameUrl = u ∧ p.lastFrameUrl = "" ∧ p.urls = none) ∧
      (∀ u v, urls = [u, v] → p.firstFrameUrl = u ∧ p.lastFrameUrl = v ∧ p.urls = none) ∧
      (urls.length ≥ 3 → p.firstFrameUrl = "" ∧ p.lastFrameUrl = "" ∧
        p.urls = some (urls.take 3))) ∧
    (prepareVeoPayload "sora-2" prompt urls ar res durationSeconds =
      GrsaiVideoPayload.sora
        { model := "sora-2", prompt := prompt, aspect := ar,
          url := urls.headD "", duration := 10, size := "small" }) ∧
    ((comflyVideoPayload model prompt (some urls) ar ups).images =
      if urls.length > 0 then some urls else none) := by
  refine ⟨?_, ?_, ?_⟩
  · match urls with
    | [] =>
      refine ⟨_, by simp only [prepareVeoPayload]; rw [if_neg hm], ?_, ?_, ?_, ?_⟩
      · intro
        exact ⟨rfl, rfl, rfl⟩
      · intro u h
        cases h
      · intro u v h
        cases h
      · intro h3
        simp at h3
    | [u] =>
      refine ⟨_, by simp only [prepareVeoPayload]; rw [if_neg hm], ?_, ?_, ?_, ?_⟩
      · intro h0
        simp at h0
      · intro x hx
        cases hx
        exact ⟨rfl, rfl, rfl⟩
      · intro x y hxy
        cases hxy
      · intro h3
        simp at h3
    | [u, v] =>
      refine ⟨_, by simp only [prepareVeoPayload]; rw [if_neg hm], ?_, ?_, ?_, ?_⟩
      · intro h0
        simp at h0
      · intro x hx
        cases hx
      · intro x y hxy
        cases hxy
        exact ⟨rfl, rfl, rfl⟩
      · intro h3
        simp at h3
    | u :: v :: w :: rest =>
      have h1 : ¬ ((u :: v :: w :: rest).length = 1) := by simp
      have h2 : ¬ ((u :: v :: w :: rest).length = 2) := by simp
      have h3 : (u :: v :: w :: rest).length ≥ 3 := by
        simp only [List.length_cons]
        omega
      refine ⟨_, by
        simp only [prepareVeoPayload]
        rw [if_neg hm, if_neg h1, if_neg h2, if_pos h3], ?_, ?_, ?_, ?_⟩
      · intro h0
        simp at h0
      · intro x hx
        cases hx
      · intro x y hxy
        cases hxy
      · intro
        exact ⟨rfl, rfl, rfl⟩
  · simp [prepareVeoPayload]
  · rfl

/-- Witness for C5 (amended): with two images the Comfly path submits both,
and the sora-2 body carries only the first URL. -/
theorem videoGen_imageCountSemantics_amended_witness :
    (comflyVideoPayload "veo3.1-fast" "p" (some ["a", "b"]) "16:9" none).images =
      some ["a", "b"] ∧
    prepareVeoPayload "sora-2" "p" ["a", "b"] "16:9" none none =
      GrsaiVideoPayload.sora
        { model := "sora-2", prompt := "p", aspect := "16:9",
          url := "a", duration := 10, size := "small" } := by
  constructor
  · have h := (videoGen_imageCountSemantics_amended "veo3.1-fast" "p" ["a", "b"] "16:9"
      none none none (by decide)).2.2
    simpa using h
  · exact (videoGen_imageCountSemantics_amended "veo3.1-fast" "p" ["a", "b"] "16:9"
      none none none (by decide)).2.1

/-- C7 counterexample: a GRSAI image poll response with an explicit failure
status and a provider-reported reason yields the hardcoded message
`Violated/Failed`, not the provider's reason — refuting verbatim surfacing. -/
theorem pollFailure_grsaiHardcodedMsg_cex :
    grsaiImagePollStep
      { status := some "failed", progress := none, results := none, url := none,
        failReason := some "content policy violation" } =
      PollAction.finalizeError "Violated/Failed" ∧
    PollAction.finalizeError "Violated/Failed" ≠
      PollAction.finalizeError "content policy violation" := by
  constructor
  · rfl
  · decide

/-- C7 (amended): on an explicit failure status every poll callback sets the
node to error and stops polling; the Comfly callbacks use the provider's
`fail_reason` when it is a non-empty string and `Generation Failed` otherwise,
while the GRSAI image and video callbacks use the fixed messages
`Violated/Failed` and `Generation Failed`. -/
theorem pollFailure_errorAndStop_amended (gi gv : GrsaiPollResp) (ci : ComflyTaskInfo)
    (cv : ComflyVideoResp) :
    (gi.status = some "failed" →
      grsaiImagePollStep gi = PollAction.finalizeError "Violated/Failed") ∧
    (gv.status = some "failed" →
      grsaiVideoPollStep gv = PollAction.finalizeError "Generation Failed") ∧
    (rawStatusOf ci.status ci.state ∈ comflyImageFailedStatuses →
      comflyImagePollStep ci = PollAction.finalizeError (jsOrStr ci.fail_reason "Generation Failed")) ∧
    ((rawStatusOf cv.status cv.state = "FAILURE" ∨ rawStatusOf cv.status cv.state = "FAILED") →
      comflyVideoPollStep cv = PollAction.finalizeError (jsOrStr cv.fail_reason "Generation Failed")) := by
  refine ⟨fun h => ?_, fun h => ?_, fun h => ?_, fun h => ?_⟩
  · simp only [grsaiImagePollStep]
    rw [if_pos h]
  · simp only [grsaiVideoPollStep]
    rw [if_pos h]
  · simp only [comflyImagePollStep]
    rw [if_pos h]
  · simp only [comflyVideoPollStep]
    rw [if_pos h]

/-- Witness for C7 (amended): concrete failed responses on all four paths. -/
theorem pollFailure_errorAndStop_amended_witness :
    grsaiImagePollStep
      { status := some "failed", progress := none, results := none, url := none,
        failReason := none } = PollAction.finalizeError "Violated/Failed" ∧
    grsaiVideoPollStep
      { status := some "failed", progress := none, results := none, url := none,
        failReason := none } = PollAction.finalizeError "Generation Failed" ∧
    comflyImagePollStep
      { status := some "failed", state := none, fail_reason := some "Quota exceeded",
        dataField := none, url := none, result := none, progress := none } =
      PollAction.finalizeError "Quota exceeded" ∧
    comflyVideoPollStep
      { status := some "FAILURE", state := none, fail_reason := none,
        dataField := none, progress := none } =
      PollAction.finalizeError "Generation Failed" := by
  refine ⟨?_, ?_, ?_, ?_⟩
  · exact (pollFailure_errorAndStop_amended
      { status := some "failed", progress := none, results := none, url := none,
        failReason := none }
      { status := none, progress := none, results := none, url := none, failReason := none }
      { status := none, state := none, fail_reason := none, dataField := none, url := none,
        result := none, progress := none }
      { status := none, state := none, fail_reason := none, dataField := none,
        progress := none }).1 rfl
  · exact (pollFailure_errorAndStop_amended
      { status := none, progress := none, results := none, url := none, failReason := none }
      { status := some "failed", progress := none, results := none, url := none,
        failReason := none }
      { status := none, state := none, fail_reason := none, dataField := none, url := none,
        result := none, progress := none }
      { status := none, state := none, fail_reason := none, dataField := none,
        progress := none }).2.1 rfl
  · have h := (pollFailure_errorAndStop_amended
      { status := none, progress := none, results := none, url := none, failReason := none }
      { status := none, progress := none, results := none, url := none, failReason := none }
      { status := some "failed", state := none, fail_reason := some "Quota exceeded",
        dataField := none, url := none, result := none, progress := none }
      { status := none, state := none, fail_reason := none, dataField := none,
        progress := none }).2.2.1 (by decide)
    simpa using h
  · have h := (pollFailure_errorAndStop_amended
      { status := none, progress := none, results := none, url := none, failReason := none }
      { status := none, progress := none, results := none, url := none, failReason := none }
      { status := none, state := none, fail_reason := none, dataField := none, url := none,
        result := none, progress := none }
      { status := some "FAILURE", state := none, fail_reason := none, dataField := none,
        progress := none }).2.2.2 (Or.inl (by decide))
    simpa using h

/-- C6 counterexample: a network failure of the poll request itself during the
poll phase produces no node update at all — the rejection escapes the
uncaught async callback — refuting the claim that every error arising during
execution is caught and sets the node's status to error. -/
theorem nodeExecution_pollPhaseUncaught_cex :
    runComflyVideoPoll (Except.error "NetworkError when attempting to fetch resource") = none ∧
    runComflyVideoPoll (Except.error "NetworkError when attempting to fetch resource") ≠
      some (PollAction.finalizeError "NetworkError when attempting to fetch resource") := by
  constructor
  · rfl
  · decide

/-- C6 (amended): an error thrown inside the `try` block of `executeNode` is
caught and turned into an error status with the thrown message on the executed
node only — the edge collection and every other node are untouched — but an
error during the asynchronous poll phase escapes the uncaught poll callback
and performs no node update at all. -/
theorem nodeExecution_failureBoundary_amended :
    (∀ (st : StoreState) (nodeId : String) (dur : ℚ) (msg : String),
      ((execCatchBoundary nodeId dur (Except.error (msg, st))).edges = st.edges) ∧
      (∀ i : Nat, ∀ n : StoreNode, st.nodes[i]? = some n → n.id ≠ nodeId →
        (execCatchBoundary nodeId dur (Except.error (msg, st))).nodes[i]? = some n) ∧
      (∀ i : Nat, ∀ n : StoreNode, st.nodes[i]? = some n → n.id = nodeId →
        (execCatchBoundary nodeId dur (Except.error (msg, st))).nodes[i]? =
          some { n with data := { n.data with status := some "error",
                                              statusMsg := some msg,
                                              duration := some dur } })) ∧
    (∀ e : String, runGrsaiImagePoll (Except.error e) = none) ∧
    (∀ e : String, runGrsaiVideoPoll (Except.error e) = none) ∧
    (∀ e : String, runComflyImagePoll (Except.error e) = none) ∧
    (∀ e : String, runComflyVideoPoll (Except.error e) = none) := by
  refine ⟨fun st nodeId dur msg => ⟨rfl, fun i n hn hid => ?_, fun i n hn hid => ?_⟩,
    fun e => rfl, fun e => rfl, fun e => rfl, fun e => rfl⟩
  · simp only [execCatchBoundary, updateNodeData, List.getElem?_map, hn, Option.map_some']
    rw [if_neg hid]
  · simp only [execCatchBoundary, updateNodeData, List.getElem?_map, hn, Option.map_some']
    rw [if_pos hid]
    rfl

/-- Witness for C6 (amended): a thrown error in a two-node store sets node `a`
to error with the message and leaves node `b` untouched; a rejected poll
request updates nothing. -/
theorem nodeExecution_failureBoundary_amended_witness :
    ((execCatchBoundary "a" 2 (Except.error ("boom",
      { nodes :=
          [ { id := "a", ntype := "aiVideoGen", posX := 0, posY := 0,
              data := { label := some "A", content := none, url := none, remark := none,
                        status := some "loading", statusMsg := some "Running...",
                        progress := some 0, startTime := some 100, duration := none } },
            { id := "b", ntype := "inputText", posX := 1, posY := 2,
              data := { label := some "B", content := some "hello", url := none, remark := none,
                        status := some "idle", statusMsg := none, progress := none,
                        startTime := none, duration := none } } ],
        edges := [] }))).nodes[1]? =
      some { id := "b", ntype := "inputText", posX := 1, posY := 2,
             data := { label := some "B", content := some "hello", url := none, remark := none,
                       status := some "idle", statusMsg := none, progress := none,
                       startTime := none, duration := none } }) ∧
    ((execCatchBoundary "a" 2 (Except.error ("boom",
      { nodes :=
          [ { id := "a", ntype := "aiVideoGen", posX := 0, posY := 0,
              data := { label := some "A", content := none, url := none, remark := none,
                        status := some "loading", statusMsg := some "Running...",
                        progress := some 0, startTime := some 100, duration := none } },
            { id := "b", ntype := "inputText", posX := 1, posY := 2,
              data := { label := some "B", content := some "hello", url := none, remark := none,
                        status := some "idle", statusMsg := none, progress := none,
                        startTime := none, duration := none } } ],
        edges := [] }))).nodes[0]? =
      some { id := "a", ntype := "aiVideoGen", posX := 0, posY := 0,
             data := { label := some "A", content := none, url := none, remark := none,
                       status := some "error", statusMsg := some "boom",
                       progress := some 0, startTime := some 100, duration := some 2 } }) ∧
    runGrsaiVideoPoll (Except.error "HTTP 500") = none := by
  refine ⟨?_, ?_, ?_⟩
  · exact (nodeExecution_failureBoundary_amended.1 _ "a" 2 "boom").2.1 1 _ rfl (by decide)
  · have h := (nodeExecution_failureBoundary_amended.1
      { nodes :=
          [ { id := "a", ntype := "aiVideoGen", posX := 0, posY := 0,
              data := { label := some "A", content := none, url := none, remark := none,
                        status := some "loading", statusMsg := some "Running...",
                        progress := some 0, startTime := some 100, duration := none } },
            { id := "b", ntype := "inputText", posX := 1, posY := 2,
              data := { label := some "B", content := some "hello", url := none, remark := none,
                        status := some "idle", statusMsg := none, progress := none,
                        startTime := none, duration := none } } ],
        edges := [] } "a" 2 "boom").2.2 0
      { id := "a", ntype := "aiVideoGen", posX := 0, posY := 0,
        data := { label := some "A", content := none, url := none, remark := none,
                  status := some "loading", statusMsg := some "Running...",
                  progress := some 0, startTime := some 100, duration := none } } rfl rfl
    exact h
  · exact nodeExecution_failureBoundary_amended.2.2.1 "HTTP 500"

end NodeLab
